import Mathlib

/-!
Shallow embedding of `src/qq_acp_fastapi_server.py` (a FastAPI webhook for the
Virtuals ACP marketplace) together with the liquidity-based slippage estimator
that the specification documents.  Python floats are modelled as rationals,
JSON values as an inductive `JVal`, dicts as association lists, and the two
fallible network interactions (`verify_payment`'s HTTP call and the estimator's
price-pair fetch) as explicit outcome arguments.
-/

/-- A JSON value, as produced by the server's handlers. -/
inductive JVal where
  | jnum  : ℚ → JVal
  | jstr  : String → JVal
  | jbool : Bool → JVal
  | jarr  : List JVal → JVal
  | jobj  : List (String × JVal) → JVal

/-- Lookup of a key in a JSON object's field list (Python `dict.get`). -/
def jlookup (fields : List (String × JVal)) (k : String) : Option JVal :=
  match fields with
  | [] => none
  | (k2, v) :: rest => if k2 = k then some v else jlookup rest k

/-- Top-level field access on a JSON value; `none` when it is not an object. -/
def JVal.getField : JVal → String → Option JVal
  | .jobj fs, k => jlookup fs k
  | _, _ => none

/-- `ACP_API_URL` from the source. -/
def ACP_API_URL : String := "https://api.virtuals.io/v1/jobs"

/-- `AGENT_SECRET_KEY` from the source. -/
def AGENT_SECRET_KEY : String := "acp-f7831137941a13fbd918"

/-- An outbound HTTP GET request as issued via `httpx`: url, headers, and the
`timeout` keyword argument (seconds). -/
structure HttpGetRequest where
  url : String
  headers : List (String × String)
  timeout : ℚ

/-- The request `verify_payment` sends (source lines 31-37): GET on
`ACP_API_URL/{job_id}` with a bearer token and `timeout=5.0`. -/
def verify_payment_request (job_id : String) : HttpGetRequest :=
  { url := ACP_API_URL ++ "/" ++ job_id
    headers := [("Authorization", "Bearer " ++ AGENT_SECRET_KEY)]
    timeout := 5 }

/-- What the payment API interaction can yield, seen from `verify_payment`'s
`try` block: an exception anywhere in the block (`exn`), or a response with a
status code whose `.json()` either parses to an object (`Except.ok`) or raises
(`Except.error`, also caught by the `except`). -/
inductive PaymentApiOutcome where
  | exn  : PaymentApiOutcome
  | resp : Nat → Except Unit (List (String × JVal)) → PaymentApiOutcome

/-- `verify_payment` (source lines 26-49): true iff the response has status
200 and its `status` field is one of PAID, TRANSACTION, COMPLETED; false on a
non-200 status, a missing or non-string `status` field, or any exception. -/
def verify_payment : PaymentApiOutcome → Bool
  | .exn => false
  | .resp code body =>
    if code = 200 then
      match body with
      | .error _ => false
      | .ok job_data =>
        match jlookup job_data "status" with
        | some (.jstr s) => ["PAID", "TRANSACTION", "COMPLETED"].contains s
        | _ => false
    else false

/-- The parsed request body (`JobRequest` pydantic model). -/
structure JobRequest where
  jobId : String
  buyerAddress : String
  serviceId : String
  parameters : List (String × JVal)

/-- The canned `quick-scan` result (source lines 82-88). -/
def quick_scan_result (now : String) : JVal :=
  .jobj [("trust_score", .jnum 85), ("is_honeypot", .jbool false),
         ("is_blacklisted", .jbool false), ("recommendation", .jstr "PROCEED"),
         ("processed_at", .jstr now)]

/-- The canned `slippage-calculator` result (source lines 97-103). -/
def slippage_calculator_result (now : String) : JVal :=
  .jobj [("slippage_100", .jnum (3/10)), ("slippage_1000", .jnum (1/2)),
         ("slippage_10000", .jnum (6/5)), ("recommendation", .jstr "HIGH_LIQUIDITY"),
         ("processed_at", .jstr now)]

/-- The canned `full-deep-dive` result (source lines 112-123). -/
def full_deep_dive_result (now : String) : JVal :=
  .jobj [("security", .jobj [("trust_score", .jnum 85), ("risks", .jarr [])]),
         ("liquidity", .jobj [("slippage_100", .jnum (3/10)), ("is_liquid", .jbool true)]),
         ("recommendation", .jstr "BUY"), ("processed_at", .jstr now)]

/-- A raised `HTTPException`. -/
structure HTTPError where
  status_code : Nat
  detail : String
  deriving DecidableEq

/-- `handle_service_request` (source lines 52-153).  The result of the awaited
`verify_payment` call is passed as `is_paid`, and the wall clock reading used
for `processed_at` as `now`.  An `HTTPException` raised out of the handler is
the `Except.error` case; any returned payload is `Except.ok`.  The inner
`try/except` catches the `ValueError` for an unknown service and turns it into
an error payload that is still returned with HTTP success. -/
def handle_service_request (request : JobRequest) (is_paid : Bool) (now : String) :
    Except HTTPError JVal :=
  if is_paid = false then
    .error { status_code := 402, detail := "Payment not verified in escrow" }
  else
    let inner : Except String JVal :=
      if request.serviceId = "quick-scan" then .ok (quick_scan_result now)
      else if request.serviceId = "slippage-calculator" then .ok (slippage_calculator_result now)
      else if request.serviceId = "full-deep-dive" then .ok (full_deep_dive_result now)
      else .error ("Unknown service: " ++ request.serviceId)
    match inner with
    | .ok result =>
        .ok (.jobj [("status", .jstr "success"), ("jobId", .jstr request.jobId),
                    ("deliverable", .jobj [("type", .jstr "json"), ("value", result)])])
    | .error msg =>
        .ok (.jobj [("status", .jstr "error"), ("jobId", .jstr request.jobId),
                    ("message", .jstr msg)])

/-!
The slippage estimator.  The source's `slippage-calculator` branch only holds a
`TODO: DEXScreener API 호출` placeholder; the estimator itself is code of this
repository that is not under `src/`, so it is modelled from the specification
(§3-§4.1, §6) below.
-/

/-- Modelled from the spec: a `PoolQuote` as returned by the price-pair source
(pool identifier, chain identifier, liquidity in quote currency). -/
structure PoolQuote where
  poolId : String
  chainId : String
  liquidity : ℚ
  deriving DecidableEq

/-- Modelled from the spec: the fixed fee-tier contribution, 0.3 percent. -/
def FEE_TIER_PERCENT : ℚ := 3/10

/-- Rounding to 2 decimal places. -/
def round2 (x : ℚ) : ℚ := (round (x * 100) : ℚ) / 100

/-- Modelled from the spec: the unrounded slippage percentage for a trade of
size `trade` against total liquidity `L`:
`(trade / (L/2 + trade)) * 100` plus the fee tier. -/
def raw_slippage (L trade : ℚ) : ℚ := trade / (L / 2 + trade) * 100 + FEE_TIER_PERCENT

/-- Modelled from the spec: the reported slippage, rounded to 2 decimals. -/
def slippage_at (L trade : ℚ) : ℚ := round2 (raw_slippage L trade)

/-- Modelled from the spec: the recommendation derived from the 1,000- and
10,000-unit slippages against the fixed thresholds. -/
def recommendation_for (s1000 s10000 : ℚ) : String :=
  if 2 < s10000 then "HIGH_RISK"
  else if 1 < s1000 then "MODERATE_RISK"
  else "PROCEED"

/-- Modelled from the spec: the `SlippageEstimate` record of §3. -/
structure SlippageEstimate where
  slippage_100 : ℚ
  slippage_1000 : ℚ
  slippage_10000 : ℚ
  liquidity_usd : ℤ
  recommendation : String
  best_pool : String
  deriving DecidableEq

/-- Fold step for pool selection: keep the incumbent unless a later pool has
strictly larger liquidity, so ties keep the first maximum encountered. -/
def pick_max (b : PoolQuote) : List PoolQuote → PoolQuote
  | [] => b
  | p :: ps => pick_max (if b.liquidity < p.liquidity then p else b) ps

/-- Modelled from the spec: select the pair with maximum liquidity, ties broken
by source ordering (first maximum encountered); `none` on an empty list. -/
def select_best : List PoolQuote → Option PoolQuote
  | [] => none
  | p :: ps => some (pick_max p ps)

/-- Modelled from the spec: `estimate(tokenIdentifier) → SlippageEstimate | absent`.
The outcome of the outbound fetch is passed explicitly: `none` for a network
failure, malformed response, or non-success status, `some pairs` for the parsed
pair set.  Filters to the target chain, selects the most liquid pool, fails
closed on an empty or zero-liquidity selection, and otherwise computes the
slippage ladder, the recommendation, and the rounded total liquidity. -/
def estimate (targetChain : String) (fetched : Option (List PoolQuote)) :
    Option SlippageEstimate :=
  match fetched with
  | none => none
  | some pairs =>
    let onChain := pairs.filter (fun p => p.chainId == targetChain)
    match select_best onChain with
    | none => none
    | some best =>
      if best.liquidity = 0 then none
      else some
        { slippage_100 := slippage_at best.liquidity 100
          slippage_1000 := slippage_at best.liquidity 1000
          slippage_10000 := slippage_at best.liquidity 10000
          liquidity_usd := round best.liquidity
          recommendation := recommendation_for (slippage_at best.liquidity 1000)
            (slippage_at best.liquidity 10000)
          best_pool := best.poolId }

/-- Modelled from the spec: the serialized estimate, a flat key-value structure
with the six field names of §6. -/
def serialize_estimate (e : SlippageEstimate) : List (String × JVal) :=
  [("slippage_100", .jnum e.slippage_100), ("slippage_1000", .jnum e.slippage_1000),
   ("slippage_10000", .jnum e.slippage_10000), ("liquidity_usd", .jnum (e.liquidity_usd : ℚ)),
   ("recommendation", .jstr e.recommendation), ("best_pool", .jstr e.best_pool)]

/-- Modelled from the spec: the estimator's single outbound call to the
price-pair lookup service, queried by token identifier with the fixed
5-second timeout budget (§5, §6). -/
def estimator_request (tokenIdentifier : String) : HttpGetRequest :=
  { url := tokenIdentifier, headers := [], timeout := 5 }

/-- All outbound network calls the service issues while serving one request:
the payment verification (from the source) and the estimator's price-pair
fetch (modelled from the spec). -/
def service_outbound_requests (job_id tokenIdentifier : String) : List HttpGetRequest :=
  [verify_payment_request job_id, estimator_request tokenIdentifier]

/-!
Theorems.
-/

/-- C8: when payment verification returns false, `handle_service_request` raises
HTTP 402 with detail "Payment not verified in escrow", and no service-specific
processing happens: the outcome is this error for every service id and
parameter set. -/
theorem unpaid_request_rejected_with_402 (request : JobRequest) (now : String) :
    handle_service_request request false now =
      .error { status_code := 402, detail := "Payment not verified in escrow" } := rfl

/-- C9: a paid request with an unknown service id yields (without propagating
an exception) an error payload echoing the jobId and naming the unknown
service; and — for every request, paid or not, known service or not — every
returned payload, success or error, carries the request's jobId unchanged. -/
theorem unknown_service_error_payload (request : JobRequest) (now : String) :
    (request.serviceId ≠ "quick-scan" → request.serviceId ≠ "slippage-calculator" →
      request.serviceId ≠ "full-deep-dive" →
      handle_service_request request true now =
        .ok (.jobj [("status", .jstr "error"), ("jobId", .jstr request.jobId),
                    ("message", .jstr ("Unknown service: " ++ request.serviceId))])) ∧
    ∀ (is_paid : Bool) (resp : JVal), handle_service_request request is_paid now = .ok resp →
      resp.getField "jobId" = some (.jstr request.jobId) := by
  constructor
  · intro h1 h2 h3
    simp [handle_service_request, h1, h2, h3]
  · intro is_paid resp h
    cases is_paid with
    | false => simp [handle_service_request] at h
    | true =>
      by_cases e1 : request.serviceId = "quick-scan"
      · simp [handle_service_request, e1] at h
        simp [← h, JVal.getField, jlookup]
      · by_cases e2 : request.serviceId = "slippage-calculator"
        · simp [handle_service_request, e1, e2] at h
          simp [← h, JVal.getField, jlookup]
        · by_cases e3 : request.serviceId = "full-deep-dive"
          · simp [handle_service_request, e1, e2, e3] at h
            simp [← h, JVal.getField, jlookup]
          · simp [handle_service_request, e1, e2, e3] at h
            simp [← h, JVal.getField, jlookup]

/-- C9 witness: a concrete paid request with service id "mystery" gets the
error payload with its jobId and a message naming the service, and a concrete
success response (service id "quick-scan") also carries its jobId unchanged. -/
theorem unknown_service_error_payload_witness :
    handle_service_request ⟨"job-1", "0xbuyer", "mystery", []⟩ true "t" =
      .ok (.jobj [("status", .jstr "error"), ("jobId", .jstr "job-1"),
                  ("message", .jstr ("Unknown service: " ++ "mystery"))]) ∧
    JVal.getField (.jobj [("status", .jstr "success"), ("jobId", .jstr "job-2"),
        ("deliverable", .jobj [("type", .jstr "json"), ("value", quick_scan_result "t")])])
      "jobId" = some (.jstr "job-2") :=
  ⟨(unknown_service_error_payload ⟨"job-1", "0xbuyer", "mystery", []⟩ "t").1
      (by decide) (by decide) (by decide),
   (unknown_service_error_payload ⟨"job-2", "0xbuyer", "quick-scan", []⟩ "t").2 true
      (.jobj [("status", .jstr "success"), ("jobId", .jstr "job-2"),
              ("deliverable", .jobj [("type", .jstr "json"), ("value", quick_scan_result "t")])])
      rfl⟩

/-- C10: `verify_payment` is a total function of the payment-API outcome and
returns true exactly when the response has HTTP status 200, parses, and its
`status` field is the string PAID, TRANSACTION, or COMPLETED; every other
outcome (exception, non-200, parse failure, missing or non-string field)
returns false. -/
theorem verify_payment_true_iff (r : PaymentApiOutcome) :
    verify_payment r = true ↔
      ∃ body s, r = .resp 200 (.ok body) ∧ jlookup body "status" = some (.jstr s) ∧
        (s = "PAID" ∨ s = "TRANSACTION" ∨ s = "COMPLETED") := by
  constructor
  · intro h
    cases r with
    | exn => simp [verify_payment] at h
    | resp code body =>
      by_cases hc : code = 200
      · subst hc
        cases body with
        | error e => simp [verify_payment] at h
        | ok job_data =>
          simp only [verify_payment, if_pos rfl] at h
          cases hl : jlookup job_data "status" with
          | none => rw [hl] at h; simp at h
          | some v =>
            cases v with
            | jstr s =>
              rw [hl] at h
              exact ⟨job_data, s, rfl, hl, by simpa using h⟩
            | jnum q => rw [hl] at h; simp at h
            | jbool b => rw [hl] at h; simp at h
            | jarr xs => rw [hl] at h; simp at h
            | jobj fs => rw [hl] at h; simp at h
      · simp [verify_payment, hc] at h
  · rintro ⟨body, s, rfl, hl, hs⟩
    simp only [verify_payment, if_pos rfl, hl]
    rcases hs with rfl | rfl | rfl <;> decide

/-- C10 witness: a 200 response whose status field is "PAID" verifies. -/
theorem verify_payment_true_iff_witness :
    verify_payment (.resp 200 (.ok [("status", .jstr "PAID")])) = true :=
  (verify_payment_true_iff (.resp 200 (.ok [("status", .jstr "PAID")]))).mpr
    ⟨[("status", .jstr "PAID")], "PAID", rfl, rfl, Or.inl rfl⟩

/-- C7: every outbound network call the service issues carries the fixed
5-second timeout budget. -/
theorem service_outbound_timeout_five (job_id tok : String) (r : HttpGetRequest)
    (h : r ∈ service_outbound_requests job_id tok) : r.timeout = 5 := by
  simp only [service_outbound_requests, List.mem_cons, List.mem_singleton,
    List.not_mem_nil, or_false] at h
  rcases h with rfl | rfl <;> rfl

/-- C7 witness: the payment-verification request for a concrete job id is one
of the service's outbound requests and has timeout 5. -/
theorem service_outbound_timeout_five_witness :
    (verify_payment_request "job-1").timeout = 5 :=
  service_outbound_timeout_five "job-1" "0xtoken" (verify_payment_request "job-1")
    (by simp [service_outbound_requests])

/-- Every element of `b :: ps` has liquidity at most that of `pick_max b ps`. -/
theorem pick_max_le (b : PoolQuote) (ps : List PoolQuote) :
    ∀ p ∈ b :: ps, p.liquidity ≤ (pick_max b ps).liquidity := by
  induction ps generalizing b with
  | nil =>
    intro p hp
    rw [List.mem_singleton] at hp
    subst hp
    exact le_refl _
  | cons q qs ih =>
    intro p hp
    have hc1 : b.liquidity ≤ (if b.liquidity < q.liquidity then q else b).liquidity := by
      by_cases hbq : b.liquidity < q.liquidity
      · rw [if_pos hbq]; exact le_of_lt hbq
      · rw [if_neg hbq]
    have hc2 : q.liquidity ≤ (if b.liquidity < q.liquidity then q else b).liquidity := by
      by_cases hbq : b.liquidity < q.liquidity
      · rw [if_pos hbq]
      · rw [if_neg hbq]; exact le_of_not_lt hbq
    rw [pick_max]
    rcases List.mem_cons.mp hp with rfl | hp' 
    · exact le_trans hc1 (ih _ _ (List.mem_cons_self _ _))
    · rcases List.mem_cons.mp hp' with rfl | hp''
      · exact le_trans hc2 (ih _ _ (List.mem_cons_self _ _))
      · exact ih _ p (List.mem_cons_of_mem _ hp'')

/-- `pick_max b ps` is the first element of `b :: ps` attaining the maximum
liquidity: everything strictly before it is strictly smaller. -/
theorem pick_max_first (b : PoolQuote) (ps : List PoolQuote) :
    ∃ l₁ l₂, b :: ps = l₁ ++ pick_max b ps :: l₂ ∧
      ∀ p ∈ l₁, p.liquidity < (pick_max b ps).liquidity := by
  induction ps generalizing b with
  | nil => exact ⟨[], [], rfl, by simp⟩
  | cons q qs ih =>
    by_cases hbq : b.liquidity < q.liquidity
    · have hrw : pick_max b (q :: qs) = pick_max q qs := by rw [pick_max, if_pos hbq]
      obtain ⟨l₁, l₂, heq, hlt⟩ := ih q
      refine ⟨b :: l₁, l₂, ?_, ?_⟩
      · rw [hrw, List.cons_append, ← heq]
      · intro p hp
        rw [hrw]
        rcases List.mem_cons.mp hp with rfl | hp'
        · exact lt_of_lt_of_le hbq (pick_max_le q qs q (List.mem_cons_self _ _))
        · exact hlt p hp'
    · have hrw : pick_max b (q :: qs) = pick_max b qs := by rw [pick_max, if_neg hbq]
      obtain ⟨l₁, l₂, heq, hlt⟩ := ih b
      cases l₁ with
      | nil =>
        rw [List.nil_append, List.cons.injEq] at heq
        obtain ⟨hb, -⟩ := heq
        exact ⟨[], q :: qs, by rw [hrw, List.nil_append, ← hb], by simp⟩
      | cons b1 l1 =>
        rw [List.cons_append, List.cons.injEq] at heq
        obtain ⟨hb1, hqs⟩ := heq
        have hblt : b.liquidity < (pick_max b qs).liquidity :=
          hlt b (hb1 ▸ List.mem_cons_self b1 l1)
        refine ⟨b :: q :: l1, l₂, ?_, ?_⟩
        · rw [hrw, List.cons_append, List.cons_append, ← hqs]
        · intro p hp
          rw [hrw]
          rcases List.mem_cons.mp hp with rfl | hp'
          · exact hblt
          · rcases List.mem_cons.mp hp' with rfl | hp''
            · exact lt_of_le_of_lt (le_of_not_lt hbq) hblt
            · exact hlt p (List.mem_cons_of_mem _ hp'')

/-- C4: whenever pool selection returns a pool, that pool is one of the
candidates, has maximum liquidity among them, and is the first maximum in
source order (every earlier candidate has strictly smaller liquidity). -/
theorem select_best_first_max (pairs : List PoolQuote) (b : PoolQuote)
    (h : select_best pairs = some b) :
    (b ∈ pairs ∧ ∀ p ∈ pairs, p.liquidity ≤ b.liquidity) ∧
    ∃ l₁ l₂, pairs = l₁ ++ b :: l₂ ∧ ∀ p ∈ l₁, p.liquidity < b.liquidity := by
  cases pairs with
  | nil => simp [select_best] at h
  | cons p ps =>
    have hb : pick_max p ps = b := by simpa [select_best] using h
    obtain ⟨l₁, l₂, heq, hlt⟩ := pick_max_first p ps
    rw [hb] at heq hlt
    refine ⟨⟨?_, ?_⟩, l₁, l₂, heq, hlt⟩
    · rw [heq]
      exact List.mem_append_right _ (List.mem_cons_self _ _)
    · intro x hx
      have hle := pick_max_le p ps x hx
      rwa [hb] at hle

/-- C4 witness: among pools with liquidity 50, 200, 75 the selector returns
the 200-liquidity pool, and the estimate built from them references it. -/
theorem select_best_first_max_witness :
    (((⟨"pool-200", "base", 200⟩ : PoolQuote) ∈
        [(⟨"pool-50", "base", 50⟩ : PoolQuote), ⟨"pool-200", "base", 200⟩,
         ⟨"pool-75", "base", 75⟩] ∧
      ∀ p ∈ [(⟨"pool-50", "base", 50⟩ : PoolQuote), ⟨"pool-200", "base", 200⟩,
         ⟨"pool-75", "base", 75⟩], p.liquidity ≤ (200 : ℚ)) ∧
     ∃ l₁ l₂,
       [(⟨"pool-50", "base", 50⟩ : PoolQuote), ⟨"pool-200", "base", 200⟩,
        ⟨"pool-75", "base", 75⟩] = l₁ ++ (⟨"pool-200", "base", 200⟩ : PoolQuote) :: l₂ ∧
       ∀ p ∈ l₁, p.liquidity < (200 : ℚ)) ∧
    (estimate "base" (some [(⟨"pool-50", "base", 50⟩ : PoolQuote),
        ⟨"pool-200", "base", 200⟩, ⟨"pool-75", "base", 75⟩])).map
      SlippageEstimate.best_pool = some "pool-200" :=
  ⟨select_best_first_max
    [⟨"pool-50", "base", 50⟩, ⟨"pool-200", "base", 200⟩, ⟨"pool-75", "base", 75⟩]
    ⟨"pool-200", "base", 200⟩ (by decide), by decide⟩

/-- C3: the estimator fails closed, returning the absent sentinel (it is a
total function, so it never raises): on a failed fetch, on an empty pair set,
when no pair lies on the target chain, and when the selected best pool has
liquidity exactly zero. -/
theorem estimate_fails_closed (chain : String) (pairs : List PoolQuote) :
    estimate chain none = none ∧
    estimate chain (some []) = none ∧
    ((∀ p ∈ pairs, p.chainId ≠ chain) → estimate chain (some pairs) = none) ∧
    ∀ b, select_best (pairs.filter (fun p => p.chainId == chain)) = some b →
      b.liquidity = 0 → estimate chain (some pairs) = none := by
  refine ⟨rfl, rfl, ?_, ?_⟩
  · intro hno
    have hfil : pairs.filter (fun p => p.chainId == chain) = [] := by
      rw [List.filter_eq_nil_iff]
      intro p hp
      simpa using hno p hp
    simp [estimate, hfil, select_best]
  · intro b hsel hzero
    simp [estimate, hsel, hzero]

/-- C3 witness: concrete instances — a fetch failure, an empty pair set, a
pair set entirely on another chain, and a zero-liquidity best pool all yield
the absent sentinel. -/
theorem estimate_fails_closed_witness :
    estimate "base" none = none ∧
    estimate "base" (some []) = none ∧
    estimate "base" (some [(⟨"pool-eth", "ethereum", 500⟩ : PoolQuote)]) = none ∧
    estimate "base" (some [(⟨"pool-0", "base", 0⟩ : PoolQuote)]) = none := by
  have h := estimate_fails_closed "base" [(⟨"pool-eth", "ethereum", 500⟩ : PoolQuote)]
  have h0 := estimate_fails_closed "base" [(⟨"pool-0", "base", 0⟩ : PoolQuote)]
  refine ⟨h.1, h.2.1, h.2.2.1 (by decide), h0.2.2.2 ⟨"pool-0", "base", 0⟩ (by decide) rfl⟩

/-- C1: for a single pool of liquidity `L > 0` on the target chain, the
estimate's three slippage fields are exactly the rounded values
`round2 (trade / (L/2 + trade) * 100 + 3/10)` for trades 100, 1000, 10000,
the liquidity is `L` rounded to the nearest integer, and the pool is the one
given. -/
theorem estimate_single_pool (chain pid : String) (L : ℚ) (hL : 0 < L) :
    estimate chain (some [⟨pid, chain, L⟩]) = some
      { slippage_100 := round2 (100 / (L / 2 + 100) * 100 + 3/10)
        slippage_1000 := round2 (1000 / (L / 2 + 1000) * 100 + 3/10)
        slippage_10000 := round2 (10000 / (L / 2 + 10000) * 100 + 3/10)
        liquidity_usd := round L
        recommendation := recommendation_for (round2 (1000 / (L / 2 + 1000) * 100 + 3/10))
          (round2 (10000 / (L / 2 + 10000) * 100 + 3/10))
        best_pool := pid } := by
  have hne : L ≠ 0 := ne_of_gt hL
  simp [estimate, select_best, pick_max, hne, slippage_at, raw_slippage, FEE_TIER_PERCENT]

/-- Evaluation rule for `round` on rationals, via the floor characterization. -/
theorem round_rat_eq (x : ℚ) (z : ℤ) (h1 : (z : ℚ) ≤ x + 1/2) (h2 : x + 1/2 < z + 1) :
    round x = z := by
  rw [round_eq]
  exact Int.floor_eq_iff.mpr ⟨h1, by linarith⟩

/-- C1 witness: the spec's own example, a single pool with L = 10000 on the
target chain, where the rounded slippages come out as 2.26, 16.97, 66.97 and
the recommendation is HIGH_RISK. -/
theorem estimate_single_pool_witness :
    (0 : ℚ) < 10000 ∧
    estimate "base" (some [⟨"p", "base", (10000 : ℚ)⟩]) = some
      { slippage_100 := 113/50, slippage_1000 := 1697/100, slippage_10000 := 6697/100,
        liquidity_usd := 10000, recommendation := "HIGH_RISK", best_pool := "p" } := by
  refine ⟨by norm_num, ?_⟩
  rw [estimate_single_pool "base" "p" 10000 (by norm_num)]
  have e1 : round2 (100 / ((10000 : ℚ) / 2 + 100) * 100 + 3/10) = 113/50 := by
    unfold round2
    rw [show (100 / ((10000 : ℚ) / 2 + 100) * 100 + 3/10) * 100 = 11530/51 by norm_num]
    rw [round_rat_eq (11530/51) 226 (by norm_num) (by norm_num)]
    norm_num
  have e2 : round2 (1000 / ((10000 : ℚ) / 2 + 1000) * 100 + 3/10) = 1697/100 := by
    unfold round2
    rw [show (1000 / ((10000 : ℚ) / 2 + 1000) * 100 + 3/10) * 100 = 5090/3 by norm_num]
    rw [round_rat_eq (5090/3) 1697 (by norm_num) (by norm_num)]
    norm_num
  have e3 : round2 (10000 / ((10000 : ℚ) / 2 + 10000) * 100 + 3/10) = 6697/100 := by
    unfold round2
    rw [show (10000 / ((10000 : ℚ) / 2 + 10000) * 100 + 3/10) * 100 = 20090/3 by norm_num]
    rw [round_rat_eq (20090/3) 6697 (by norm_num) (by norm_num)]
    norm_num
  have elq : round ((10000 : ℚ)) = 10000 := round_rat_eq _ _ (by norm_num) (by norm_num)
  have erec : recommendation_for (1697/100) (6697/100) = "HIGH_RISK" := by
    unfold recommendation_for
    rw [if_pos (by norm_num)]
  rw [e1, e2, e3, elq, erec]

/-- C5: a successful estimate serializes to a flat key-value structure with
exactly the six field names, its `liquidity_usd` is the selected pool's total
liquidity rounded to the nearest integer, and its `best_pool` is that pool's
identifier. -/
theorem estimate_serialization (chain : String) (pairs : List PoolQuote)
    (e : SlippageEstimate) (h : estimate chain (some pairs) = some e) :
    (serialize_estimate e).map Prod.fst =
      ["slippage_100", "slippage_1000", "slippage_10000", "liquidity_usd",
       "recommendation", "best_pool"] ∧
    ∃ b, select_best (pairs.filter (fun p => p.chainId == chain)) = some b ∧
      e.liquidity_usd = round b.liquidity ∧ e.best_pool = b.poolId := by
  refine ⟨rfl, ?_⟩
  simp only [estimate] at h
  cases hsel : select_best (pairs.filter (fun p => p.chainId == chain)) with
  | none => rw [hsel] at h; simp at h
  | some b =>
    rw [hsel] at h
    dsimp only at h
    by_cases hz : b.liquidity = 0
    · rw [if_pos hz] at h; simp at h
    · rw [if_neg hz] at h
      have h2 := Option.some.inj h
      exact ⟨b, rfl, by rw [← h2], by rw [← h2]⟩

/-- The estimate computed for a single pool of liquidity 10000 on chain
"base"; used as a concrete instance in several witnesses. -/
def example_estimate : SlippageEstimate :=
  { slippage_100 := slippage_at 10000 100
    slippage_1000 := slippage_at 10000 1000
    slippage_10000 := slippage_at 10000 10000
    liquidity_usd := round ((10000 : ℚ))
    recommendation := recommendation_for (slippage_at 10000 1000) (slippage_at 10000 10000)
    best_pool := "p" }

/-- C5 witness: the estimate for a concrete single-pool input serializes with
the six field names and references the selected pool. -/
theorem estimate_serialization_witness :
    (serialize_estimate example_estimate).map Prod.fst =
      ["slippage_100", "slippage_1000", "slippage_10000", "liquidity_usd",
       "recommendation", "best_pool"] ∧
    ∃ b, select_best ([(⟨"p", "base", (10000 : ℚ)⟩ : PoolQuote)].filter
        (fun p => p.chainId == "base")) = some b ∧
      example_estimate.liquidity_usd = round b.liquidity ∧
      example_estimate.best_pool = b.poolId :=
  estimate_serialization "base" [⟨"p", "base", 10000⟩] example_estimate rfl

/-- C2: every produced estimate's recommendation is HIGH_RISK exactly when its
10,000-unit slippage exceeds 2, MODERATE_RISK exactly when its 1,000-unit
slippage exceeds 1 while the 10,000-unit one does not exceed 2, PROCEED
exactly when neither threshold is exceeded, and no other value occurs. -/
theorem estimate_recommendation_cases (chain : String) (fetched : Option (List PoolQuote))
    (e : SlippageEstimate) (h : estimate chain fetched = some e) :
    (e.recommendation = "HIGH_RISK" ↔ 2 < e.slippage_10000) ∧
    (e.recommendation = "MODERATE_RISK" ↔ 1 < e.slippage_1000 ∧ e.slippage_10000 ≤ 2) ∧
    (e.recommendation = "PROCEED" ↔ e.slippage_1000 ≤ 1 ∧ e.slippage_10000 ≤ 2) ∧
    (e.recommendation = "PROCEED" ∨ e.recommendation = "MODERATE_RISK" ∨
      e.recommendation = "HIGH_RISK") := by
  cases fetched with
  | none => simp [estimate] at h
  | some pairs =>
    simp only [estimate] at h
    cases hsel : select_best (pairs.filter (fun p => p.chainId == chain)) with
    | none => rw [hsel] at h; simp at h
    | some b =>
      rw [hsel] at h
      dsimp only at h
      by_cases hz : b.liquidity = 0
      · rw [if_pos hz] at h; simp at h
      · rw [if_neg hz] at h
        have h2 := Option.some.inj h
        subst h2
        dsimp only
        unfold recommendation_for
        split_ifs with c4 c1
        · exact ⟨⟨fun _ => c4, fun _ => rfl⟩,
            ⟨fun hx => absurd hx (by decide), fun hx => absurd hx.2 (not_le.mpr c4)⟩,
            ⟨fun hx => absurd hx (by decide), fun hx => absurd hx.2 (not_le.mpr c4)⟩,
            Or.inr (Or.inr rfl)⟩
        · exact ⟨⟨fun hx => absurd hx (by decide), fun hx => absurd hx c4⟩,
            ⟨fun _ => ⟨c1, le_of_not_lt c4⟩, fun _ => rfl⟩,
            ⟨fun hx => absurd hx (by decide), fun hx => absurd c1 (not_lt.mpr hx.1)⟩,
            Or.inr (Or.inl rfl)⟩
        · exact ⟨⟨fun hx => absurd hx (by decide), fun hx => absurd hx c4⟩,
            ⟨fun hx => absurd hx (by decide), fun hx => absurd hx.1 c1⟩,
            ⟨fun _ => ⟨le_of_not_lt c1, le_of_not_lt c4⟩, fun _ => rfl⟩,
            Or.inl rfl⟩

/-- C2 witness: the concrete single-pool estimate's recommendation satisfies
the threshold characterization. -/
theorem estimate_recommendation_cases_witness :
    (example_estimate.recommendation = "HIGH_RISK" ↔ 2 < example_estimate.slippage_10000) ∧
    (example_estimate.recommendation = "MODERATE_RISK" ↔
      1 < example_estimate.slippage_1000 ∧ example_estimate.slippage_10000 ≤ 2) ∧
    (example_estimate.recommendation = "PROCEED" ↔
      example_estimate.slippage_1000 ≤ 1 ∧ example_estimate.slippage_10000 ≤ 2) ∧
    (example_estimate.recommendation = "PROCEED" ∨
      example_estimate.recommendation = "MODERATE_RISK" ∨
      example_estimate.recommendation = "HIGH_RISK") :=
  estimate_recommendation_cases "base" (some [⟨"p", "base", 10000⟩]) example_estimate rfl

/-- C6 counterexample: at liquidity L = 1,000,000,000 the rounded 100-unit and
1,000-unit slippages are both exactly 0.3, so the reported slippage ladder is
not strictly increasing for every L > 0. -/
theorem slippage_strict_increase_counterexample :
    (0 : ℚ) < 1000000000 ∧
    slippage_at 1000000000 100 = 3/10 ∧ slippage_at 1000000000 1000 = 3/10 ∧
    ¬ slippage_at 1000000000 100 < slippage_at 1000000000 1000 := by
  have e1 : slippage_at 1000000000 100 = 3/10 := by
    unfold slippage_at raw_slippage FEE_TIER_PERCENT round2
    rw [show ((100 : ℚ) / (1000000000 / 2 + 100) * 100 + 3/10) * 100 =
      150010030/5000001 by norm_num]
    rw [round_rat_eq (150010030/5000001) 30 (by norm_num) (by norm_num)]
    norm_num
  have e2 : slippage_at 1000000000 1000 = 3/10 := by
    unfold slippage_at raw_slippage FEE_TIER_PERCENT round2
    rw [show ((1000 : ℚ) / (1000000000 / 2 + 1000) * 100 + 3/10) * 100 =
      15010030/500001 by norm_num]
    rw [round_rat_eq (15010030/500001) 30 (by norm_num) (by norm_num)]
    norm_num
  exact ⟨by norm_num, e1, e2, by rw [e1, e2]; exact lt_irrefl _⟩

/-- Strict monotonicity in the trade size of the unrounded slippage. -/
theorem raw_slippage_strict_mono (L a b : ℚ) (hL : 0 < L) (ha : 0 < a) (hab : a < b) :
    raw_slippage L a < raw_slippage L b := by
  unfold raw_slippage
  have hda : 0 < L / 2 + a := by linarith
  have hdb : 0 < L / 2 + b := by linarith
  have key : a / (L / 2 + a) < b / (L / 2 + b) := by
    rw [div_lt_div_iff₀ hda hdb]
    nlinarith
  nlinarith [key]

/-- Two-decimal rounding is monotone. -/
theorem round2_mono (x y : ℚ) (h : x ≤ y) : round2 x ≤ round2 y := by
  unfold round2
  have hr : round (x * 100) ≤ round (y * 100) := by
    rw [round_eq, round_eq]
    exact Int.floor_le_floor (by linarith)
  have hc : ((round (x * 100) : ℤ) : ℚ) ≤ ((round (y * 100) : ℤ) : ℚ) := Int.cast_le.mpr hr
  linarith

/-- C6 (amended): for every liquidity L > 0 the unrounded slippage is strictly
increasing in the trade size, and the reported 2-decimal-rounded slippages are
therefore non-decreasing (strictness can be lost to rounding, as the
counterexample at L = 1,000,000,000 shows). -/
theorem slippage_monotone_in_trade (L : ℚ) (hL : 0 < L) :
    (raw_slippage L 100 < raw_slippage L 1000 ∧
      raw_slippage L 1000 < raw_slippage L 10000) ∧
    (slippage_at L 100 ≤ slippage_at L 1000 ∧
      slippage_at L 1000 ≤ slippage_at L 10000) := by
  have h1 := raw_slippage_strict_mono L 100 1000 hL (by norm_num) (by norm_num)
  have h2 := raw_slippage_strict_mono L 1000 10000 hL (by norm_num) (by norm_num)
  exact ⟨⟨h1, h2⟩, round2_mono _ _ (le_of_lt h1), round2_mono _ _ (le_of_lt h2)⟩

/-- C6 witness: the amended monotonicity at the concrete liquidity L = 10000. -/
theorem slippage_monotone_in_trade_witness :
    (0 : ℚ) < 10000 ∧
    ((raw_slippage 10000 100 < raw_slippage 10000 1000 ∧
       raw_slippage 10000 1000 < raw_slippage 10000 10000) ∧
     (slippage_at 10000 100 ≤ slippage_at 10000 1000 ∧
       slippage_at 10000 1000 ≤ slippage_at 10000 10000)) :=
  ⟨by norm_num, slippage_monotone_in_trade 10000 (by norm_num)⟩
